import Mathlib

/-!
Verification of the JMON Live pattern core (src/session.js and src/player.js)
against its specification. The JavaScript is embedded shallowly: JS numbers
become rationals, JS objects become structures, absent fields become Option,
and the dynamically typed time and duration inputs become inductive types whose
constructors mirror the case analysis the source performs on them. Exact JS
arithmetic on the inputs used here is rational, so the embedding is exact.
-/

/-- Time values as a JMON pattern supplies them (the cases distinguished by
parseTime in src/session.js, lines 117 to 140): a plain number, a string of the
form bars:beats or bars:beats:ticks whose first part parses as an integer via
parseInt and second as a rational via parseFloat (malformed parts default to 0,
which is folded into the carried values), any other string (with a flag telling
whether it is empty, which matters only for JS truthiness), or an absent
field. -/
inductive TimeValue where
  | num (q : ℚ)
  | bb (bars : ℤ) (beats : ℚ) (withTick : Bool)
  | other (isEmpty : Bool)
  | absent
  deriving DecidableEq

/-- JS truthiness of a time value: the number 0, the empty string and an absent
field are falsy, everything else modelled here is truthy. Used by the legacy
branch of setPattern ( event.time or index ). -/
def TimeValue.truthy : TimeValue → Bool
  | .num q => decide (q ≠ 0)
  | .bb _ _ _ => true
  | .other isEmpty => !isEmpty
  | .absent => false

/-- Numeric view of a time value: some q exactly when the stored JS value is a
number. Addition of a non numeric time to a number in JS produces a string, a
case outside this rational embedding; it is reachable only through the legacy
branch, which stores raw time values, and no claim depends on it. -/
def TimeValue.asNum : TimeValue → Option ℚ
  | .num q => some q
  | _ => none

/-- Translation of parseTime (src/session.js, lines 117 to 140): a number is
returned unchanged; a bars:beats or bars:beats:ticks string maps to
bars * 4 + beats with the ticks part ignored; any other string and an absent
value map to 0. The JS function never throws; totality of this definition
mirrors that. -/
def parseTime : TimeValue → ℚ
  | .num q => q
  | .bb bars beats _ => (bars : ℚ) * 4 + beats
  | .other _ => 0
  | .absent => 0

/-- Duration values as a JMON pattern supplies them (the cases distinguished by
parseDuration in src/session.js, lines 147 to 190): a plain number, a note
value string of digits followed by n or t (the captured integer is carried), a
string containing a colon (carried as its parsed bars and beats parts), any
other string, or an absent field. The empty string is folded into the other
constructor: both are mapped to the same default by the source. -/
inductive DurationValue where
  | num (q : ℚ)
  | noteN (v : ℕ)
  | noteT (v : ℕ)
  | bb (bars : ℤ) (beats : ℚ)
  | other
  | absent
  deriving DecidableEq

/-- Translation of parseDuration (src/session.js, lines 147 to 190). The
leading falsy check of the source sends an absent value and the number 0 to
1/4 (0.25, the sixteenth note default). A nonzero number below 10 is returned
unchanged; a number at least 10 is treated as seconds and scaled by tempo / 60.
A note value string of v followed by n gives 4 / v and of v followed by t gives
(4 / v) * (2 / 3); the source computes 4 / 0 as the JS value Infinity for the
string 0n, which has no rational counterpart, so theorems below about the note
value cases restrict to a positive captured integer. A colon string gives
bars * 4 + beats, and anything else gives 1/4. -/
def parseDuration (tempo : ℚ) : DurationValue → ℚ
  | .absent => 1/4
  | .num q =>
      if q = 0 then 1/4
      else if q < 10 then q
      else q * (tempo / 60)
  | .noteN v => 4 / (v : ℚ)
  | .noteT v => (4 / (v : ℚ)) * (2/3)
  | .bb bars beats => (bars : ℚ) * 4 + beats
  | .other => 1/4

/-- Raw note of a JMON track. The pitch is opaque to the core (copied, never
inspected); a single representative type suffices for every claim below, so it
is carried as an integer. The velocity is optional, and JS NaN payloads are not
modelled. -/
structure RawNote where
  pitch : ℤ
  time : TimeValue
  duration : DurationValue
  velocity : Option ℚ
  deriving DecidableEq

/-- Track of a JMON pattern. A track whose notes field is absent is skipped by
the source exactly like a track with an empty notes array, so both are carried
as the empty list. The synth and synthRef fields are opaque passthroughs no
claim mentions and are omitted. -/
structure Track where
  label : Option String
  notes : List RawNote
  deriving DecidableEq

/-- Note of the flattened timeline: a raw note spread together with the label
of its owning track (src/session.js, lines 88 to 95). Before sorting the time
field still holds the raw value; the final map of flattenJMONTracks replaces it
by the parsed number. -/
structure FlatNote where
  pitch : ℤ
  time : TimeValue
  duration : DurationValue
  velocity : Option ℚ
  trackLabel : Option String
  deriving DecidableEq

/-- Concatenation step of flattenJMONTracks (src/session.js, lines 81 to 96):
tracks in order, notes in order within each track, each note annotated with its
track label. -/
def annotateTracks (tracks : List Track) : List FlatNote :=
  tracks.flatMap fun t => t.notes.map fun n =>
    { pitch := n.pitch, time := n.time, duration := n.duration,
      velocity := n.velocity, trackLabel := t.label }

/-- Comparison used by the sort of flattenJMONTracks (src/session.js, lines 99
to 103): ascending by parsed time. The JS engine sort is stable, so the stable
mergeSort is its faithful embedding. -/
def noteLe (a b : FlatNote) : Bool :=
  decide (parseTime a.time ≤ parseTime b.time)

/-- Final map of flattenJMONTracks (src/session.js, lines 106 to 109): the time
field is replaced by its parsed quarter note value. -/
def normalizeNoteTime (n : FlatNote) : FlatNote :=
  { n with time := .num (parseTime n.time) }

/-- Translation of flattenJMONTracks (src/session.js, lines 76 to 110):
annotate all notes, stable sort ascending by parsed time, then normalize the
time fields. -/
def flattenJMONTracks (tracks : List Track) : List FlatNote :=
  ((annotateTracks tracks).mergeSort noteLe).map normalizeNoteTime

/-- Translation of the legacy events branch of setPattern (src/session.js,
lines 43 to 47): each event is kept in input order, its time replaced by the
note index when falsy (JS event.time or index), and tagged with the track label
main. No parseTime normalization and no sort happen on this path. -/
def legacyFlatten (events : List RawNote) : List FlatNote :=
  events.enum.map fun ie =>
    { pitch := ie.2.pitch,
      time := if ie.2.time.truthy then ie.2.time else .num (ie.1 : ℚ),
      duration := ie.2.duration,
      velocity := ie.2.velocity,
      trackLabel := some "main" }

/-- JMON pattern object as setPattern inspects it: optional format tag,
optional tempo, optional tracks array, optional events array. JS arrays are
truthy even when empty, so presence is carried by Option and tested with
isSome. -/
structure Pattern where
  format : Option String
  tempo : Option ℚ
  tracks : Option (List Track)
  events : Option (List RawNote)
  deriving DecidableEq

/-- Tempo taken from a pattern (src/session.js, lines 37 and 42): the JS
expression newPattern.tempo or 120, so an absent tempo and the falsy tempo 0
both give 120. -/
def patternTempo (p : Pattern) : ℚ :=
  match p.tempo with
  | some t => if t = 0 then 120 else t
  | none => 120

/-- Session state (the fields assigned in the constructor of src/session.js,
lines 9 to 17). -/
structure Session where
  pattern : Option Pattern
  flattenedNotes : List FlatNote
  position : ℕ
  eventsPlayed : ℕ
  tempo : ℚ
  startTime : ℚ
  loopDuration : ℚ
  deriving DecidableEq

/-- Freshly constructed session (src/session.js, lines 9 to 17). -/
def Session.init : Session :=
  { pattern := none, flattenedNotes := [], position := 0, eventsPlayed := 0,
    tempo := 120, startTime := 0, loopDuration := 0 }

/-- Loop duration update of setPattern (src/session.js, lines 53 to 58): when
the flattened timeline is nonempty, loopDuration becomes the time of its last
element plus the parsed duration of that element; otherwise the field keeps its
previous value. When the last element carries a non numeric raw time (reachable
only through the legacy branch) the JS addition concatenates a string; that
value lies outside the rational embedding and the definition leaves the field
unchanged there, a case no claim touches. -/
def applyLoopDuration (s : Session) : Session :=
  match s.flattenedNotes.getLast? with
  | some lastNote =>
      match lastNote.time.asNum with
      | some t =>
          { s with loopDuration := t + parseDuration s.tempo lastNote.duration }
      | none => s
  | none => s

/-- Position reset step of setPattern (src/session.js, lines 60 to 63). -/
def applyReset (s : Session) (resetPosition : Bool) : Session :=
  if resetPosition then { s with position := 0, eventsPlayed := 0 } else s

/-- Translation of setPattern (src/session.js, lines 24 to 69). A pattern with
format jmon or a tracks field takes the full JMON branch; otherwise a pattern
with an events field takes the legacy branch; otherwise the call logs an error
and returns with no state change. Both successful branches store the pattern,
take its tempo, rebuild the flattened timeline, recompute the loop duration
from the last flattened note, and reset the cursor unless resetPosition is
false. -/
def setPattern (s : Session) (p : Pattern) (resetPosition : Bool) : Session :=
  if p.format = some "jmon" ∨ p.tracks.isSome then
    applyReset (applyLoopDuration
      { s with pattern := some p, tempo := patternTempo p,
               flattenedNotes := flattenJMONTracks (p.tracks.getD []) })
      resetPosition
  else if p.events.isSome then
    applyReset (applyLoopDuration
      { s with pattern := some p, tempo := patternTempo p,
               flattenedNotes := legacyFlatten (p.events.getD []) })
      resetPosition
  else s

/-- Value returned by next (src/session.js, lines 213 to 217): the note at the
current position spread together with the scheduled time and the new position.
When the position is out of range the JS indexing yields undefined and the
spread contributes no fields; that case is carried as note := none. -/
structure PlayedEvent where
  note : Option FlatNote
  scheduledTime : ℚ
  position : ℕ
  deriving DecidableEq

/-- Translation of next (src/session.js, lines 197 to 218): on an empty
timeline return null and change nothing; otherwise read the note at the current
position, advance the position by one modulo the timeline length, count the
event, and return the read note with timing info. The returned position field
is the already advanced one, as in the source. -/
def next (s : Session) (time : ℚ) : Option PlayedEvent × Session :=
  if s.flattenedNotes.length = 0 then (none, s)
  else
    let event := s.flattenedNotes[s.position]?
    let newPos := (s.position + 1) % s.flattenedNotes.length
    (some { note := event, scheduledTime := time, position := newPos },
     { s with position := newPos, eventsPlayed := s.eventsPlayed + 1 })

/-- Translation of reset (src/session.js, lines 291 to 296). -/
def Session.reset (s : Session) : Session :=
  { s with position := 0, eventsPlayed := 0, startTime := 0 }

/-- Translation of getPatternLength (src/session.js, lines 244 to 246). -/
def getPatternLength (s : Session) : ℕ :=
  s.flattenedNotes.length

/-- Translation of getPatternDuration (src/session.js, lines 252 to 254). -/
def getPatternDuration (s : Session) : ℚ :=
  s.loopDuration

/-- Translation of quarterNotesToSeconds (src/session.js, lines 261 to 265). -/
def quarterNotesToSeconds (s : Session) (q : ℚ) : ℚ :=
  (q / s.tempo) * 60

/-- Schedule handed to the external clock by schedulePattern: the event list
and the loop end, the data the source feeds to the Tone.Part it builds. -/
structure Schedule where
  events : List (TimeValue × FlatNote)
  loopEnd : ℚ
  deriving DecidableEq

/-- Translation of schedulePattern (src/player.js, lines 52 to 91): with an
empty timeline nothing is scheduled (none); otherwise every flattened note is
registered at its time and the loop end is the loop duration, with the falsy
default sending a zero loop duration to 4. -/
def schedulePattern (s : Session) : Option Schedule :=
  if s.flattenedNotes.length = 0 then none
  else some
    { events := s.flattenedNotes.map fun n => (n.time, n),
      loopEnd := if s.loopDuration = 0 then 4 else s.loopDuration }

/-- Velocity actually used at playback (src/player.js, line 103): the JS
expression event.velocity or 0.7, so an absent velocity and the falsy velocity
0 both give 7/10, and any other value passes through with no clamping. -/
def effectiveVelocity (v : Option ℚ) : ℚ :=
  match v with
  | some q => if q = 0 then 7/10 else q
  | none => 7/10

/-- Modelled from the spec: the claimed velocity rule
clamp(note.velocity def 0.7, 0, 1), stated for comparison with the code. -/
def specClampVelocity (v : Option ℚ) : ℚ :=
  max 0 (min 1 (v.getD (7/10)))

/-- Modelled from the spec: the claimed loop duration, the maximum of
timeQ + durationQ over all events of the timeline and 0 for an empty timeline,
stated for comparison with the code. -/
def specLoopDuration (tempo : ℚ) (notes : List FlatNote) : ℚ :=
  (notes.map fun n => parseTime n.time + parseDuration tempo n.duration).foldr max 0

/-- Session states reachable from a fresh session through the public mutation
operations. -/
inductive Reachable : Session → Prop
  | init : Reachable Session.init
  | set (s : Session) (p : Pattern) (r : Bool) :
      Reachable s → Reachable (setPattern s p r)
  | step (s : Session) (t : ℚ) : Reachable s → Reachable (next s t).2
  | rst (s : Session) : Reachable s → Reachable (Session.reset s)

/-- First note of the C1 counterexample pattern: starts at 0 and sounds for 5
quarter notes. -/
def c1LongNote : RawNote :=
  { pitch := 60, time := .num 0, duration := .num 5, velocity := none }

/-- Second note of the C1 counterexample pattern: starts at 1 and sounds for a
quarter of a quarter note, so it ends long before the first note does. -/
def c1ShortNote : RawNote :=
  { pitch := 64, time := .num 1, duration := .num (1/4), velocity := none }

/-- Tracks shaped pattern whose last sorted note ends before an earlier note
does. -/
def c1Pattern : Pattern :=
  { format := none, tempo := none,
    tracks := some [{ label := some "a", notes := [c1LongNote, c1ShortNote] }],
    events := none }

/-- Tracks shaped pattern with no notes at all. -/
def c1EmptyPattern : Pattern :=
  { format := none, tempo := none, tracks := some [], events := none }

/-- Session after loading the C1 counterexample pattern. -/
def c1Session : Session :=
  setPattern Session.init c1Pattern true

/-- Track holding one note with velocity 2, above the claimed clamp range. -/
def c2Track : Track :=
  { label := some "t",
    notes := [{ pitch := 60, time := .num 0, duration := .absent,
                velocity := some 2 }] }

/-- Legacy events shaped pattern whose events arrive in descending time
order. -/
def c3Pattern : Pattern :=
  { format := none, tempo := none, tracks := none,
    events := some
      [{ pitch := 60, time := .num 5, duration := .absent, velocity := none },
       { pitch := 64, time := .num 1, duration := .absent, velocity := none }] }

/-- Two note pattern loaded first in the C4 hot swap scenario. -/
def c4PatternA : Pattern :=
  { format := none, tempo := none,
    tracks := some [{ label := some "a", notes :=
      [{ pitch := 60, time := .num 0, duration := .absent, velocity := none },
       { pitch := 64, time := .num 1, duration := .absent, velocity := none }] }],
    events := none }

/-- One note pattern swapped in while the cursor is mid range. -/
def c4PatternB : Pattern :=
  { format := none, tempo := none,
    tracks := some [{ label := some "b", notes :=
      [{ pitch := 67, time := .num 0, duration := .absent, velocity := none }] }],
    events := none }

/-- Reachable session exhibiting a cursor outside the timeline range: load the
two note pattern, consume one event, then hot swap to the one note pattern
without resetting the position. -/
def c4Bad : Session :=
  setPattern (next (setPattern Session.init c4PatternA true) 0).2 c4PatternB false

/-- One note session used to instantiate the C4 cursor theorem. -/
def c4One : Session :=
  { Session.init with flattenedNotes :=
      [{ pitch := 60, time := .num 0, duration := .absent, velocity := none,
         trackLabel := some "a" }] }

/-- Pattern with the format tag jmon but with neither a tracks nor an events
field. -/
def c5Pattern : Pattern :=
  { format := some "jmon", tempo := some 90, tracks := none, events := none }

theorem applyReset_flattenedNotes (s : Session) (r : Bool) :
    (applyReset s r).flattenedNotes = s.flattenedNotes := by
  cases r <;> rfl

theorem applyReset_loopDuration (s : Session) (r : Bool) :
    (applyReset s r).loopDuration = s.loopDuration := by
  cases r <;> rfl

theorem applyReset_tempo (s : Session) (r : Bool) :
    (applyReset s r).tempo = s.tempo := by
  cases r <;> rfl

theorem applyReset_position_false (s : Session) :
    (applyReset s false).position = s.position := rfl

theorem applyLoopDuration_flattenedNotes (s : Session) :
    (applyLoopDuration s).flattenedNotes = s.flattenedNotes := by
  unfold applyLoopDuration
  split
  · split <;> rfl
  · rfl

theorem applyLoopDuration_tempo (s : Session) :
    (applyLoopDuration s).tempo = s.tempo := by
  unfold applyLoopDuration
  split
  · split <;> rfl
  · rfl

theorem applyLoopDuration_position (s : Session) :
    (applyLoopDuration s).position = s.position := by
  unfold applyLoopDuration
  split
  · split <;> rfl
  · rfl

theorem applyLoopDuration_loopDuration_of_empty (s : Session)
    (h : s.flattenedNotes = []) :
    (applyLoopDuration s).loopDuration = s.loopDuration := by
  simp [applyLoopDuration, h]

theorem applyLoopDuration_loopDuration_of_last (s : Session) (ln : FlatNote)
    (t : ℚ) (h : s.flattenedNotes.getLast? = some ln) (ht : ln.time = .num t) :
    (applyLoopDuration s).loopDuration = t + parseDuration s.tempo ln.duration := by
  simp [applyLoopDuration, h, ht, TimeValue.asNum]

theorem setPattern_tracks (s : Session) (p : Pattern) (r : Bool)
    (h : p.format = some "jmon" ∨ p.tracks.isSome) :
    setPattern s p r = applyReset (applyLoopDuration
      { s with pattern := some p, tempo := patternTempo p,
               flattenedNotes := flattenJMONTracks (p.tracks.getD []) }) r := by
  unfold setPattern
  rw [if_pos h]

theorem setPattern_events (s : Session) (p : Pattern) (r : Bool)
    (es : List RawNote) (hfmt : p.format ≠ some "jmon") (htr : p.tracks = none)
    (hev : p.events = some es) :
    setPattern s p r = applyReset (applyLoopDuration
      { s with pattern := some p, tempo := patternTempo p,
               flattenedNotes := legacyFlatten es }) r := by
  unfold setPattern
  rw [if_neg (by simp [hfmt, htr]), if_pos (by simp [hev]), hev]
  rfl

theorem setPattern_invalid (s : Session) (p : Pattern) (r : Bool)
    (hfmt : p.format ≠ some "jmon") (htr : p.tracks = none)
    (hev : p.events = none) :
    setPattern s p r = s := by
  unfold setPattern
  rw [if_neg (by simp [hfmt, htr]), if_neg (by simp [hev])]

theorem next_flattenedNotes (s : Session) (t : ℚ) :
    (next s t).2.flattenedNotes = s.flattenedNotes := by
  unfold next
  split <;> rfl

theorem next_position_of_nonempty (s : Session) (t : ℚ)
    (h : s.flattenedNotes ≠ []) :
    (next s t).2.position = (s.position + 1) % s.flattenedNotes.length := by
  unfold next
  rw [if_neg (by simpa using h)]

/-- C5 counterexample: the pattern { format := jmon, tempo := 90 } has neither
a tracks nor an events field, yet setPattern accepts it and changes the session
tempo from 120 to 90, so the claim that every such pattern is rejected with the
state left unchanged is false. -/
theorem C5_counterexample :
    c5Pattern.tracks = none ∧ c5Pattern.events = none ∧
    (setPattern Session.init c5Pattern true).tempo ≠ Session.init.tempo := by
  refine ⟨rfl, rfl, ?_⟩
  rw [setPattern_tracks Session.init c5Pattern true (Or.inl rfl),
      applyReset_tempo, applyLoopDuration_tempo]
  norm_num [patternTempo, c5Pattern, Session.init]

/-- C5 amended: for every pattern whose format tag is not jmon and that has
neither a tracks nor an events field, setPattern rejects it and returns the
session completely unchanged, so the stored pattern, flattened timeline, loop
duration, tempo, position and eventsPlayed are all the same after the call as
before. -/
theorem C5_reject_unchanged (s : Session) (p : Pattern) (r : Bool)
    (hfmt : p.format ≠ some "jmon") (htr : p.tracks = none)
    (hev : p.events = none) :
    setPattern s p r = s :=
  setPattern_invalid s p r hfmt htr hev

/-- C5 witness: a pattern with no format tag, no tracks and no events leaves a
fresh session untouched. -/
theorem C5_witness :
    setPattern Session.init
      { format := none, tempo := some 90, tracks := none, events := none }
      true = Session.init :=
  C5_reject_unchanged Session.init
    { format := none, tempo := some 90, tracks := none, events := none }
    true (by simp) rfl rfl

/-- C6 counterexample: the numeric duration 0 is below 10, so the claim says
parseDuration returns it unchanged, but the source treats 0 as falsy and
returns the default 1/4. -/
theorem C6_counterexample : parseDuration 120 (.num 0) ≠ 0 := by
  norm_num [parseDuration]

/-- C6 amended: for every nonzero numeric duration n, parseDuration returns n
unchanged when n < 10 and n * tempo / 60 when n >= 10; the numeric duration 0
is falsy in JS and falls to the default 1/4 instead of being returned
unchanged. -/
theorem C6_numeric_duration (tempo q : ℚ) (hq : q ≠ 0) :
    (q < 10 → parseDuration tempo (.num q) = q) ∧
    (10 ≤ q → parseDuration tempo (.num q) = q * (tempo / 60)) ∧
    parseDuration tempo (.num 0) = 1/4 := by
  refine ⟨fun h => ?_, fun h => ?_, by simp [parseDuration]⟩
  · simp [parseDuration, hq, h]
  · simp [parseDuration, hq, not_lt.mpr h]

/-- C6 witness: the quarter note duration 2 passes through unchanged and the
legacy seconds duration 30 is scaled by tempo / 60 at 120 BPM. -/
theorem C6_witness :
    parseDuration 120 (.num 2) = 2 ∧
    parseDuration 120 (.num 30) = 30 * ((120 : ℚ) / 60) :=
  ⟨(C6_numeric_duration 120 2 (by norm_num)).1 (by norm_num),
   (C6_numeric_duration 120 30 (by norm_num)).2.1 (by norm_num)⟩

/-- C7 counterexample: the duration string 2:1 is neither a digits n nor a
digits t note value, so the claim sends it to the default 1/4, but the source
parses colon strings as bars and beats and returns 9. -/
theorem C7_counterexample : parseDuration 120 (.bb 2 1) ≠ 1/4 := by
  norm_num [parseDuration]

/-- C7 amended: parseDuration maps a digits n note value with positive captured
integer v to 4 / v quarter notes, a digits t value to (4 / v) * (2 / 3), an
absent value and any other unrecognized string to the default 1/4, and a
bars:beats string to bars * 4 + beats; the colon string case is the one the
claim omitted. -/
theorem C7_duration_strings (tempo : ℚ) (v : ℕ) (b : ℤ) (beats : ℚ)
    (hv : 0 < v) :
    parseDuration tempo (.noteN v) = 4 / (v : ℚ) ∧
    parseDuration tempo (.noteT v) = (4 / (v : ℚ)) * (2/3) ∧
    parseDuration tempo .absent = 1/4 ∧
    parseDuration tempo .other = 1/4 ∧
    parseDuration tempo (.bb b beats) = (b : ℚ) * 4 + beats :=
  ⟨rfl, rfl, rfl, rfl, rfl⟩

/-- C7 witness: the note values 4n, 8n, 16n and 8t give 1, 1/2, 1/4 and 1/3
quarter notes. -/
theorem C7_witness :
    parseDuration 120 (.noteN 4) = 1 ∧ parseDuration 120 (.noteN 8) = 1/2 ∧
    parseDuration 120 (.noteN 16) = 1/4 ∧ parseDuration 120 (.noteT 8) = 1/3 := by
  refine ⟨?_, ?_, ?_, ?_⟩
  · rw [(C7_duration_strings 120 4 0 0 (by norm_num)).1]; norm_num
  · rw [(C7_duration_strings 120 8 0 0 (by norm_num)).1]; norm_num
  · rw [(C7_duration_strings 120 16 0 0 (by norm_num)).1]; norm_num
  · rw [(C7_duration_strings 120 8 0 0 (by norm_num)).2.1]; norm_num

/-- C8 confirmed: parseTime returns a number unchanged, maps a bars:beats or
bars:beats:ticks string to bars * 4 + beats with the tick part ignored (so the
string 2:1 maps to 9), and maps any other string and an absent value to 0; the
definition is total, mirroring that the source never throws. -/
theorem C8_parse_time (q beats : ℚ) (b : ℤ) (tk e : Bool) :
    parseTime (.num q) = q ∧
    parseTime (.bb b beats tk) = (b : ℚ) * 4 + beats ∧
    parseTime (.bb 2 1 false) = 9 ∧
    parseTime (.other e) = 0 ∧
    parseTime .absent = 0 := by
  refine ⟨rfl, rfl, ?_, rfl, rfl⟩
  norm_num [parseTime]

/-- C10 confirmed: on a session whose flattened timeline is empty, next returns
null and the session after the call is exactly the session before it, so
position, eventsPlayed, tempo and the timeline are all unchanged. -/
theorem C10_next_empty (s : Session) (t : ℚ) (h : s.flattenedNotes = []) :
    next s t = (none, s) := by
  simp [next, h]

/-- C10 witness: next on a fresh session returns null and changes nothing. -/
theorem C10_witness : next Session.init 0 = (none, Session.init) :=
  C10_next_empty Session.init 0 rfl

theorem noteLe_trans :
    ∀ a b c : FlatNote, noteLe a b = true → noteLe b c = true → noteLe a c = true := by
  intro a b c hab hbc
  simp only [noteLe, decide_eq_true_eq] at hab hbc ⊢
  exact le_trans hab hbc

theorem noteLe_total : ∀ a b : FlatNote, (noteLe a b || noteLe b a) = true := by
  intro a b
  simp only [noteLe, Bool.or_eq_true, decide_eq_true_eq]
  exact le_total _ _

theorem filter_time_mergeSort (l : List FlatNote) (k : ℚ) :
    (l.mergeSort noteLe).filter (fun n => decide (parseTime n.time = k)) =
      l.filter (fun n => decide (parseTime n.time = k)) := by
  have hpw : (l.filter (fun n => decide (parseTime n.time = k))).Pairwise
      (fun a b => noteLe a b = true) := by
    apply List.pairwise_of_forall_mem_list
    intro a ha b hb
    have ha' : parseTime a.time = k := by simpa using List.of_mem_filter ha
    have hb' : parseTime b.time = k := by simpa using List.of_mem_filter hb
    simp [noteLe, ha', hb']
  have hsub : (l.filter (fun n => decide (parseTime n.time = k))).Sublist
      (l.mergeSort noteLe) :=
    List.sublist_mergeSort noteLe_trans noteLe_total hpw (List.filter_sublist l)
  have hidem : (l.filter (fun n => decide (parseTime n.time = k))).filter
      (fun n => decide (parseTime n.time = k)) =
      l.filter (fun n => decide (parseTime n.time = k)) := by
    rw [List.filter_eq_self]
    intro a ha
    exact @List.of_mem_filter _ _ a _ ha
  have hsub2 := List.Sublist.filter (fun n => decide (parseTime n.time = k)) hsub
  rw [hidem] at hsub2
  have hperm := (List.mergeSort_perm l noteLe).filter
      (fun n => decide (parseTime n.time = k))
  exact (hsub2.eq_of_length hperm.length_eq.symm).symm

/-- C9 confirmed: flattening is a pure function, so flattening the same pattern
twice yields identical arrays, and the sort is stable: for every time key k,
the flattened notes whose parsed time equals k are exactly the annotated input
notes with that key, in their original relative input order (tracks in order,
notes in order within each track), with only the time normalization applied. -/
theorem C9_flatten_stable (tracks : List Track) (k : ℚ) :
    flattenJMONTracks tracks = flattenJMONTracks tracks ∧
    (flattenJMONTracks tracks).filter (fun n => decide (parseTime n.time = k)) =
      ((annotateTracks tracks).filter (fun n => decide (parseTime n.time = k))).map
        normalizeNoteTime := by
  refine ⟨rfl, ?_⟩
  unfold flattenJMONTracks
  rw [List.filter_map]
  have hcomp : ((fun n => decide (parseTime n.time = k)) ∘ normalizeNoteTime)
      = fun n => decide (parseTime n.time = k) := by
    funext n
    simp [normalizeNoteTime, parseTime]
  rw [hcomp, filter_time_mergeSort]

theorem flatten_velocity_perm (tracks : List Track) :
    ((flattenJMONTracks tracks).map FlatNote.velocity).Perm
      ((tracks.flatMap Track.notes).map RawNote.velocity) := by
  unfold flattenJMONTracks
  rw [List.map_map]
  have h1 : (FlatNote.velocity ∘ normalizeNoteTime) = FlatNote.velocity := by
    funext n
    rfl
  rw [h1]
  have h3 : (annotateTracks tracks).map FlatNote.velocity
      = (tracks.flatMap Track.notes).map RawNote.velocity := by
    unfold annotateTracks
    rw [List.map_flatMap, List.map_flatMap]
    congr 1
    funext t
    rw [List.map_map]
    rfl
  refine ((List.mergeSort_perm (annotateTracks tracks) noteLe).map
    FlatNote.velocity).trans ?_
  rw [h3]

/-- C2 counterexample: a note with velocity 2 is flattened with its velocity
kept verbatim and played back at velocity 2, while the claimed rule
clamp(velocity def 0.7, 0, 1) would give 1, so the claim is false. -/
theorem C2_counterexample :
    ((flattenJMONTracks [c2Track]).map fun n => effectiveVelocity n.velocity) ≠
      [specClampVelocity (some 2)] := by
  have h : flattenJMONTracks [c2Track] =
      [{ pitch := 60, time := .num 0, duration := .absent, velocity := some 2,
         trackLabel := some "t" }] := by
    unfold flattenJMONTracks annotateTracks c2Track
    simp [List.mergeSort_singleton, normalizeNoteTime, parseTime]
  rw [h]
  simp only [List.map_cons, List.map_nil, ne_eq, List.cons.injEq, and_true]
  norm_num [effectiveVelocity, specClampVelocity]

/-- C2 amended: flattening copies each velocity verbatim (the multiset of
velocities of the flattened timeline is exactly the multiset of input note
velocities, optionality included), and at playback the effective velocity is
the stored velocity when it is present and nonzero and 7/10 otherwise; no
clamping to the interval from 0 to 1 is performed anywhere, and the default
applies to the velocity 0 as well because the source tests JS truthiness rather
than presence. -/
theorem C2_velocity (tracks : List Track) (q : ℚ) (hq : q ≠ 0) :
    ((flattenJMONTracks tracks).map FlatNote.velocity).Perm
      ((tracks.flatMap Track.notes).map RawNote.velocity) ∧
    effectiveVelocity none = 7/10 ∧
    effectiveVelocity (some 0) = 7/10 ∧
    effectiveVelocity (some q) = q := by
  refine ⟨flatten_velocity_perm tracks, rfl, by simp [effectiveVelocity], ?_⟩
  simp [effectiveVelocity, hq]

/-- C2 witness: a nonzero velocity of 2 passes through playback unclamped. -/
theorem C2_witness : effectiveVelocity (some 2) = 2 :=
  (C2_velocity [] 2 (by norm_num)).2.2.2

theorem c1_flatten_eval :
    flattenJMONTracks [{ label := some "a", notes := [c1LongNote, c1ShortNote] }] =
      [{ pitch := 60, time := .num 0, duration := .num 5, velocity := none,
         trackLabel := some "a" },
       { pitch := 64, time := .num 1, duration := .num (1/4), velocity := none,
         trackLabel := some "a" }] := by
  have ha : annotateTracks [{ label := some "a", notes := [c1LongNote, c1ShortNote] }] =
      [{ pitch := 60, time := .num 0, duration := .num 5, velocity := none,
         trackLabel := some "a" },
       { pitch := 64, time := .num 1, duration := .num (1/4), velocity := none,
         trackLabel := some "a" }] := by
    simp [annotateTracks, c1LongNote, c1ShortNote]
  unfold flattenJMONTracks
  rw [ha, List.mergeSort_of_sorted ?hs]
  case hs =>
    simp only [List.pairwise_cons, List.mem_singleton, List.not_mem_nil,
      false_implies, implies_true, and_true, List.Pairwise.nil, forall_eq]
    norm_num [noteLe, parseTime]
  simp [normalizeNoteTime, parseTime]

theorem c1Session_eval :
    c1Session.flattenedNotes =
      [{ pitch := 60, time := .num 0, duration := .num 5, velocity := none,
         trackLabel := some "a" },
       { pitch := 64, time := .num 1, duration := .num (1/4), velocity := none,
         trackLabel := some "a" }] ∧
    c1Session.tempo = 120 ∧ c1Session.loopDuration = 5/4 := by
  have hbranch : c1Pattern.format = some "jmon" ∨ c1Pattern.tracks.isSome :=
    Or.inr (by simp [c1Pattern])
  have hmid : flattenJMONTracks (c1Pattern.tracks.getD []) =
      [{ pitch := 60, time := .num 0, duration := .num 5, velocity := none,
         trackLabel := some "a" },
       { pitch := 64, time := .num 1, duration := .num (1/4), velocity := none,
         trackLabel := some "a" }] := by
    rw [show c1Pattern.tracks.getD [] =
      [{ label := some "a", notes := [c1LongNote, c1ShortNote] }] from rfl]
    exact c1_flatten_eval
  refine ⟨?_, ?_, ?_⟩
  · rw [show c1Session = setPattern Session.init c1Pattern true from rfl,
      setPattern_tracks _ _ _ hbranch, applyReset_flattenedNotes,
      applyLoopDuration_flattenedNotes]
    exact hmid
  · rw [show c1Session = setPattern Session.init c1Pattern true from rfl,
      setPattern_tracks _ _ _ hbranch, applyReset_tempo, applyLoopDuration_tempo]
    rfl
  · rw [show c1Session = setPattern Session.init c1Pattern true from rfl,
      setPattern_tracks _ _ _ hbranch, applyReset_loopDuration,
      applyLoopDuration_loopDuration_of_last _
        { pitch := 64, time := .num 1, duration := .num (1/4), velocity := none,
          trackLabel := some "a" } 1 (by rw [hmid]; rfl) rfl]
    norm_num [parseDuration, patternTempo, c1Pattern]

/-- C1 counterexample: in the loaded two note pattern the first note ends at 5
while the last sorted note ends at 5/4, so loopDuration is 5/4 and not the
claimed maximum 5 of timeQ + durationQ over all events; and after loading a
pattern with an empty timeline on top of it, loopDuration keeps its previous
value 5/4 instead of the claimed 0. -/
theorem C1_counterexample :
    c1Session.loopDuration ≠ specLoopDuration c1Session.tempo c1Session.flattenedNotes ∧
    (setPattern c1Session c1EmptyPattern true).flattenedNotes = [] ∧
    (setPattern c1Session c1EmptyPattern true).loopDuration ≠ 0 := by
  obtain ⟨hf, ht, hl⟩ := c1Session_eval
  have hbranch : c1EmptyPattern.format = some "jmon" ∨ c1EmptyPattern.tracks.isSome :=
    Or.inr (by simp [c1EmptyPattern])
  have hempty : flattenJMONTracks (c1EmptyPattern.tracks.getD []) = [] := by
    simp [c1EmptyPattern, flattenJMONTracks, annotateTracks]
  refine ⟨?_, ?_, ?_⟩
  · rw [hf, ht, hl]
    norm_num [specLoopDuration, parseTime, parseDuration]
  · rw [setPattern_tracks _ _ _ hbranch, applyReset_flattenedNotes,
      applyLoopDuration_flattenedNotes]
    exact hempty
  · rw [setPattern_tracks _ _ _ hbranch, applyReset_loopDuration,
      applyLoopDuration_loopDuration_of_empty _ hempty]
    show c1Session.loopDuration ≠ 0
    rw [hl]
    norm_num

/-- C1 amended: after a setPattern call, when the resulting flattened timeline
is empty the loop duration keeps its previous value (it is not reset to 0), and
after a successful call whose resulting timeline is nonempty with a last
element of numeric time t, the loop duration equals t plus the parsed duration
of that last element at the new tempo, which is the end of the last sorted note
and not the maximum of note ends over all events; schedulePattern registers
nothing when the timeline is empty, as the claim states. -/
theorem C1_loop_duration (s : Session) (p : Pattern) (r : Bool) :
    ((setPattern s p r).flattenedNotes = [] →
      (setPattern s p r).loopDuration = s.loopDuration) ∧
    (∀ ln t, (p.format = some "jmon" ∨ p.tracks.isSome ∨ p.events.isSome) →
      (setPattern s p r).flattenedNotes.getLast? = some ln →
      ln.time = .num t →
      (setPattern s p r).loopDuration =
        t + parseDuration (setPattern s p r).tempo ln.duration) ∧
    (s.flattenedNotes = [] → schedulePattern s = none) := by
  have hsched : s.flattenedNotes = [] → schedulePattern s = none := by
    intro he
    simp [schedulePattern, he]
  by_cases h1 : p.format = some "jmon" ∨ p.tracks.isSome
  · rw [setPattern_tracks s p r h1]
    refine ⟨?_, ?_, hsched⟩
    · intro he
      rw [applyReset_flattenedNotes, applyLoopDuration_flattenedNotes] at he
      rw [applyReset_loopDuration, applyLoopDuration_loopDuration_of_empty _ he]
    · intro ln t _ hlast hnum
      rw [applyReset_flattenedNotes, applyLoopDuration_flattenedNotes] at hlast
      rw [applyReset_loopDuration, applyReset_tempo, applyLoopDuration_tempo,
        applyLoopDuration_loopDuration_of_last _ ln t hlast hnum]
  · push_neg at h1
    have hfmt : p.format ≠ some "jmon" := h1.1
    have htr : p.tracks = none := Option.not_isSome_iff_eq_none.mp (by simpa using h1.2)
    by_cases h2 : p.events.isSome
    · obtain ⟨es, hev⟩ := Option.isSome_iff_exists.mp h2
      rw [setPattern_events s p r es hfmt htr hev]
      refine ⟨?_, ?_, hsched⟩
      · intro he
        rw [applyReset_flattenedNotes, applyLoopDuration_flattenedNotes] at he
        rw [applyReset_loopDuration, applyLoopDuration_loopDuration_of_empty _ he]
      · intro ln t _ hlast hnum
        rw [applyReset_flattenedNotes, applyLoopDuration_flattenedNotes] at hlast
        rw [applyReset_loopDuration, applyReset_tempo, applyLoopDuration_tempo,
          applyLoopDuration_loopDuration_of_last _ ln t hlast hnum]
    · have hev : p.events = none := Option.not_isSome_iff_eq_none.mp (by simpa using h2)
      rw [setPattern_invalid s p r hfmt htr hev]
      refine ⟨fun _ => rfl, ?_, hsched⟩
      intro ln t hval _ _
      rcases hval with h | h | h
      · exact absurd h hfmt
      · rw [htr] at h
        simp at h
      · rw [hev] at h
        simp at h

/-- C1 witness: loading a pattern with an empty timeline over a fresh session
keeps the loop duration 0, a fresh session schedules nothing, and the loaded
two note pattern gets loop duration 1 plus the parsed duration of its last
sorted note. -/
theorem C1_witness :
    (setPattern Session.init c1EmptyPattern true).loopDuration = Session.init.loopDuration ∧
    schedulePattern Session.init = none ∧
    c1Session.loopDuration =
      1 + parseDuration c1Session.tempo (.num (1/4)) := by
  refine ⟨?_, ?_, ?_⟩
  · refine (C1_loop_duration Session.init c1EmptyPattern true).1 ?_
    rw [setPattern_tracks _ _ _ (Or.inr (by simp [c1EmptyPattern])),
      applyReset_flattenedNotes, applyLoopDuration_flattenedNotes]
    simp [c1EmptyPattern, flattenJMONTracks, annotateTracks]
  · exact (C1_loop_duration Session.init c1EmptyPattern true).2.2 rfl
  · exact (C1_loop_duration Session.init c1Pattern true).2.1
      { pitch := 64, time := .num 1, duration := .num (1/4), velocity := none,
        trackLabel := some "a" } 1
      (Or.inr (Or.inl (by simp [c1Pattern])))
      (by rw [show setPattern Session.init c1Pattern true = c1Session from rfl,
        c1Session_eval.1]; rfl)
      rfl

/-- C3 counterexample: the legacy pattern with events at times 5 and 1 produces
a timeline whose normalized times read 5 then 1, so the resulting array is not
sorted ascending by normalized time as the claim states: the legacy branch of
setPattern performs no sort at all. -/
theorem C3_counterexample :
    ¬ ((setPattern Session.init c3Pattern true).flattenedNotes.map fun n =>
        parseTime n.time).Sorted (· ≤ ·) := by
  rw [setPattern_events Session.init c3Pattern true
      [{ pitch := 60, time := .num 5, duration := .absent, velocity := none },
       { pitch := 64, time := .num 1, duration := .absent, velocity := none }]
      (by simp [c3Pattern]) rfl rfl,
    applyReset_flattenedNotes, applyLoopDuration_flattenedNotes]
  intro h
  norm_num [legacyFlatten, List.enum, List.enumFrom, TimeValue.truthy, parseTime,
    List.Sorted, List.pairwise_cons] at h

/-- C3 amended: for every legacy events shaped pattern (no jmon format tag, no
tracks, an events array), setPattern produces a timeline with one event per
RawNote in original input order, each tagged with trackLabel main and carrying
as its time the raw note time when that is truthy and the note index otherwise;
no parseTime normalization is applied to the stored times and the array is not
sorted, unlike the tracks shaped form. -/
theorem C3_legacy (s : Session) (p : Pattern) (r : Bool) (es : List RawNote)
    (i : ℕ) (hfmt : p.format ≠ some "jmon") (htr : p.tracks = none)
    (hev : p.events = some es) :
    (setPattern s p r).flattenedNotes = legacyFlatten es ∧
    (legacyFlatten es).length = es.length ∧
    (legacyFlatten es)[i]? = es[i]?.map fun e =>
      { pitch := e.pitch,
        time := if e.time.truthy then e.time else .num (i : ℚ),
        duration := e.duration,
        velocity := e.velocity,
        trackLabel := some "main" } := by
  refine ⟨?_, ?_, ?_⟩
  · rw [setPattern_events s p r es hfmt htr hev, applyReset_flattenedNotes,
      applyLoopDuration_flattenedNotes]
  · simp [legacyFlatten]
  · rw [legacyFlatten, List.getElem?_map, List.getElem?_enum, Option.map_map]
    rfl

/-- C3 witness: the legacy two note pattern is flattened through the legacy
branch in input order, with two events, the first tagged main and keeping its
raw time 5. -/
theorem C3_witness :
    (setPattern Session.init c3Pattern true).flattenedNotes =
      legacyFlatten
        [{ pitch := 60, time := .num 5, duration := .absent, velocity := none },
         { pitch := 64, time := .num 1, duration := .absent, velocity := none }] ∧
    (legacyFlatten
        [{ pitch := 60, time := .num 5, duration := .absent, velocity := none },
         { pitch := 64, time := .num 1, duration := .absent, velocity := none }]).length =
      ([{ pitch := 60, time := .num 5, duration := .absent, velocity := none },
        { pitch := 64, time := .num 1, duration := .absent, velocity := none }] :
        List RawNote).length ∧
    (legacyFlatten
        [{ pitch := 60, time := .num 5, duration := .absent, velocity := none },
         { pitch := 64, time := .num 1, duration := .absent, velocity := none }])[0]? =
      (([{ pitch := 60, time := .num 5, duration := .absent, velocity := none },
         { pitch := 64, time := .num 1, duration := .absent, velocity := none }] :
         List RawNote)[0]?).map fun e =>
        { pitch := e.pitch,
          time := if e.time.truthy then e.time else .num ((0 : ℕ) : ℚ),
          duration := e.duration,
          velocity := e.velocity,
          trackLabel := some "main" } :=
  C3_legacy Session.init c3Pattern true
    [{ pitch := 60, time := .num 5, duration := .absent, velocity := none },
     { pitch := 64, time := .num 1, duration := .absent, velocity := none }]
    0 (by simp [c3Pattern]) rfl rfl

theorem setPattern_position_false (s : Session) (p : Pattern) :
    (setPattern s p false).position = s.position := by
  by_cases h1 : p.format = some "jmon" ∨ p.tracks.isSome
  · rw [setPattern_tracks s p false h1, applyReset_position_false,
      applyLoopDuration_position]
  · push_neg at h1
    have hfmt : p.format ≠ some "jmon" := h1.1
    have htr : p.tracks = none := Option.not_isSome_iff_eq_none.mp (by simpa using h1.2)
    by_cases h2 : p.events.isSome
    · obtain ⟨es, hev⟩ := Option.isSome_iff_exists.mp h2
      rw [setPattern_events s p false es hfmt htr hev, applyReset_position_false,
        applyLoopDuration_position]
    · rw [setPattern_invalid s p false hfmt htr
        (Option.not_isSome_iff_eq_none.mp (by simpa using h2))]

/-- C4 amended: after every consumption by next on a nonempty timeline the
cursor is strictly below the timeline length (it wraps via modulo), the cursor
is never dereferenced when the timeline is empty (next returns null first), and
a hot swap via setPattern with resetPosition false does not throw: the cursor
is left where it was, so it may temporarily lie at or beyond the new length
(the claimed interval invariant fails there, see the counterexample), and it is
taken modulo the new timeline length by the next consumption, whose dereference
at an out of range cursor yields an absent note rather than an error. -/
theorem C4_cursor (s : Session) (p : Pattern) (t : ℚ) :
    (s.flattenedNotes ≠ [] →
      (next s t).2.position < (next s t).2.flattenedNotes.length) ∧
    (s.flattenedNotes = [] → (next s t).1 = none) ∧
    (setPattern s p false).position = s.position ∧
    ((setPattern s p false).flattenedNotes ≠ [] →
      (next (setPattern s p false) t).2.position =
        (s.position + 1) % (setPattern s p false).flattenedNotes.length) := by
  refine ⟨?_, ?_, setPattern_position_false s p, ?_⟩
  · intro h
    rw [next_flattenedNotes, next_position_of_nonempty s t h]
    exact Nat.mod_lt _ (List.length_pos.mpr h)
  · intro h
    simp [next, h]
  · intro h
    rw [next_position_of_nonempty _ t h, setPattern_position_false]

theorem c4_flattenA_eval :
    flattenJMONTracks [{ label := some "a", notes :=
      [{ pitch := 60, time := .num 0, duration := .absent, velocity := none },
       { pitch := 64, time := .num 1, duration := .absent, velocity := none }] }] =
      [{ pitch := 60, time := .num 0, duration := .absent, velocity := none,
         trackLabel := some "a" },
       { pitch := 64, time := .num 1, duration := .absent, velocity := none,
         trackLabel := some "a" }] := by
  have ha : annotateTracks [{ label := some "a", notes :=
      [{ pitch := 60, time := .num 0, duration := .absent, velocity := none },
       { pitch := 64, time := .num 1, duration := .absent, velocity := none }] }] =
      [{ pitch := 60, time := .num 0, duration := .absent, velocity := none,
         trackLabel := some "a" },
       { pitch := 64, time := .num 1, duration := .absent, velocity := none,
         trackLabel := some "a" }] := by
    simp [annotateTracks]
  unfold flattenJMONTracks
  rw [ha, List.mergeSort_of_sorted ?hs]
  case hs =>
    simp only [List.pairwise_cons, List.mem_singleton, List.not_mem_nil,
      false_implies, implies_true, and_true, List.Pairwise.nil, forall_eq]
    norm_num [noteLe, parseTime]
  simp [normalizeNoteTime, parseTime]

theorem c4_flattenB_eval :
    flattenJMONTracks [{ label := some "b", notes :=
      [{ pitch := 67, time := .num 0, duration := .absent, velocity := none }] }] =
      [{ pitch := 67, time := .num 0, duration := .absent, velocity := none,
         trackLabel := some "b" }] := by
  unfold flattenJMONTracks annotateTracks
  simp [List.mergeSort_singleton, normalizeNoteTime, parseTime]

theorem c4_bad_position : c4Bad.position = 1 := by
  have hs1 : (setPattern Session.init c4PatternA true).flattenedNotes =
      [{ pitch := 60, time := .num 0, duration := .absent, velocity := none,
         trackLabel := some "a" },
       { pitch := 64, time := .num 1, duration := .absent, velocity := none,
         trackLabel := some "a" }] := by
    rw [setPattern_tracks _ _ _ (Or.inr (by simp [c4PatternA])),
      applyReset_flattenedNotes, applyLoopDuration_flattenedNotes]
    exact c4_flattenA_eval
  have hp1 : (setPattern Session.init c4PatternA true).position = 0 := by
    rw [setPattern_tracks _ _ _ (Or.inr (by simp [c4PatternA]))]
    rfl
  rw [show c4Bad = setPattern
      (next (setPattern Session.init c4PatternA true) 0).2 c4PatternB false from rfl,
    setPattern_position_false,
    next_position_of_nonempty _ _ (by rw [hs1]; simp), hp1, hs1]
  rfl

theorem c4_swap_flattenedNotes (s : Session) :
    (setPattern s c4PatternB false).flattenedNotes =
      [{ pitch := 67, time := .num 0, duration := .absent, velocity := none,
         trackLabel := some "b" }] := by
  rw [setPattern_tracks _ _ _ (Or.inr (by simp [c4PatternB])),
    applyReset_flattenedNotes, applyLoopDuration_flattenedNotes]
  exact c4_flattenB_eval

theorem c4_bad_flattenedNotes :
    c4Bad.flattenedNotes =
      [{ pitch := 67, time := .num 0, duration := .absent, velocity := none,
         trackLabel := some "b" }] := by
  rw [show c4Bad = setPattern
      (next (setPattern Session.init c4PatternA true) 0).2 c4PatternB false from rfl,
    c4_swap_flattenedNotes]

/-- C4 counterexample: the session reached by loading a two note pattern,
consuming one event, then hot swapping to a one note pattern with
resetPosition false has a nonempty timeline of length 1 but cursor position 1,
so the claimed invariant that the position lies in the interval from 0 to the
length in every reachable state is false. -/
theorem C4_counterexample :
    Reachable c4Bad ∧ c4Bad.flattenedNotes ≠ [] ∧
    ¬ c4Bad.position < c4Bad.flattenedNotes.length := by
  refine ⟨?_, ?_, ?_⟩
  · exact Reachable.set _ c4PatternB false
      (Reachable.step _ 0 (Reachable.set _ c4PatternA true Reachable.init))
  · rw [c4_bad_flattenedNotes]
    simp
  · rw [c4_bad_flattenedNotes, c4_bad_position]
    simp

/-- C4 witness: consuming from a one note session puts the cursor strictly
below the length, next on an empty fresh session returns null, a hot swap with
resetPosition false over a fresh session keeps the cursor, and the consumption
after a hot swap onto the one note pattern wraps the cursor modulo the new
length. -/
theorem C4_witness :
    (next c4One 0).2.position < (next c4One 0).2.flattenedNotes.length ∧
    (next Session.init 0).1 = none ∧
    (setPattern Session.init c4PatternB false).position = Session.init.position ∧
    (next (setPattern c4One c4PatternB false) 0).2.position =
      (c4One.position + 1) % (setPattern c4One c4PatternB false).flattenedNotes.length :=
  ⟨(C4_cursor c4One c4PatternB 0).1 (by simp [c4One]),
   (C4_cursor Session.init c4PatternB 0).2.1 rfl,
   (C4_cursor Session.init c4PatternB 0).2.2.1,
   (C4_cursor c4One c4PatternB 0).2.2.2 (by
     rw [c4_swap_flattenedNotes]
     simp)⟩
